import Mathlib

/-!
Shallow embedding of the loopy-dns server (`dns/server.go`): a minimal
authoritative DNS responder that answers every A query with 127.0.0.1 and
every AAAA query with ::1, optionally restricting answers to a configured
zone.  DNS messages are modelled at the message level (headers, questions,
resource records); raw wire bytes are abstracted as an already-parsed
message or a parse failure.
-/

/-- DNS response codes, mirroring the `dnsmessage.RCode` constants used by
the server (`RCodeSuccess = 0`, `RCodeNameError = 3`,
`RCodeNotImplemented = 4`). -/
inductive RCode where
  | success
  | formatError
  | serverFailure
  | nameError
  | notImplemented
  | refused
deriving DecidableEq, Repr

/-- DNS record type `A` (`dnsmessage.TypeA = 1`). -/
def typeA : Nat := 1

/-- DNS record type `AAAA` (`dnsmessage.TypeAAAA = 28`). -/
def typeAAAA : Nat := 28

/-- DNS class `INET` (`dnsmessage.ClassINET = 1`). -/
def classINET : Nat := 1

/-- DNS class `CHAOS` (`dnsmessage.ClassCHAOS = 3`). -/
def classCHAOS : Nat := 3

/-- DNS message header, mirroring `dnsmessage.Header`. -/
structure Header where
  id : Nat
  response : Bool
  opCode : Nat
  authoritative : Bool
  truncated : Bool
  recursionDesired : Bool
  recursionAvailable : Bool
  rcode : RCode
deriving DecidableEq, Repr

/-- A DNS question, mirroring `dnsmessage.Question` (`Name`, `Type`,
`Class`).  The name is the textual form produced by `q.Name.String()`. -/
structure Question where
  name : String
  type : Nat
  cls : Nat
deriving DecidableEq, Repr

/-- Resource record header, mirroring `dnsmessage.ResourceHeader`. -/
structure ResourceHeader where
  name : String
  type : Nat
  cls : Nat
  ttl : Nat
  length : Nat
deriving DecidableEq, Repr

/-- Resource record body: an `AResource` (4 address bytes) or an
`AAAAResource` (16 address bytes). -/
inductive ResourceBody where
  | a (addr : List Nat)
  | aaaa (addr : List Nat)
deriving DecidableEq, Repr

/-- A resource record: header plus body. -/
structure Resource where
  header : ResourceHeader
  body : ResourceBody
deriving DecidableEq, Repr

/-- A DNS message as assembled by the response builder: header, echoed
question section, and answer section. -/
structure Response where
  header : Header
  questions : List Question
  answers : List Resource
deriving DecidableEq, Repr

/-- Embeds Go `strings.Split(s, ".")` over the characters of `s`: splits at
every dot, keeping empty pieces, so `""` gives `[""]` and `"a.b."` gives
`["a", "b", ""]`. -/
def splitOnDot : List Char → List (List Char)
  | [] => [[]]
  | c :: cs =>
    if c = '.' then [] :: splitOnDot cs
    else
      match splitOnDot cs with
      | h :: t => (c :: h) :: t
      | [] => [[c]]

/-- Embeds Go `strings.HasSuffix(s, ".")`: whether the last character of
`s` is a dot. -/
def hasSuffixDot (s : List Char) : Bool :=
  s.getLast? == some '.'

/-- Embeds the comparison loop of `isDomainInZone` (`server.go:219-223`):
walk two label lists pairwise and stop, accepting, as soon as either list
is exhausted.  The lists are passed rightmost-label-first, so this walks
the original labels from the right. -/
def matchFromRight : List (List Char) → List (List Char) → Bool
  | _, [] => true
  | [], _ => true
  | n :: ns, z :: zs => n == z && matchFromRight ns zs

/-- The label list of the query name after normalization
(`server.go:212-216`): a trailing dot is appended when missing, then the
name is split on dots. -/
def nameLabels (name : String) : List (List Char) :=
  splitOnDot (if hasSuffixDot name.toList then name.toList else name.toList ++ ['.'])

/-- The label list of the configured zone (`server.go:217`): the zone is
split on dots verbatim, with no normalization. -/
def zoneLabels (zone : String) : List (List Char) :=
  splitOnDot zone.toList

/-- Embeds `isDomainInZone` (`server.go:211-226`): normalize the name with
a trailing dot, split both name and zone into labels, and compare the
label lists pairwise from the rightmost label leftwards, accepting when
either list runs out. -/
def isDomainInZone (name zone : String) : Bool :=
  matchFromRight (nameLabels name).reverse (zoneLabels zone).reverse

/-- The 4 address bytes of `net.IPv4(127, 0, 0, 1).To4()`. -/
def localIPv4 : List Nat := [127, 0, 0, 1]

/-- The 16 address bytes of `net.ParseIP("::1")`. -/
def localIPv6 : List Nat := [0, 0, 0, 0, 0, 0, 0, 0, 0, 0, 0, 0, 0, 0, 0, 1]

/-- Embeds `ipV4ToAResource` (`server.go:199-203`): `copy` the address
bytes into a zeroed 4-byte array. -/
def ipV4ToAResource (ip : List Nat) : List Nat :=
  (ip ++ List.replicate 4 0).take 4

/-- Embeds `ipV6ToAAAAResource` (`server.go:205-209`): `copy` the address
bytes into a zeroed 16-byte array. -/
def ipV6ToAAAAResource (ip : List Nat) : List Nat :=
  (ip ++ List.replicate 16 0).take 16

/-- Embeds `answerQuestion` (`server.go:150-197`).  The Go function
mutates the response header's `RCode` and returns a builder closure that
appends zero or one answer records; here it returns the updated header
together with the list of records that closure appends. -/
def answerQuestion (zone : String) (responseHeader : Header) (q : Question) :
    Header × List Resource :=
  if zone ≠ "" ∧ isDomainInZone q.name zone = false then
    ({ responseHeader with rcode := RCode.nameError }, [])
  else if q.type = typeA then
    (responseHeader,
      [⟨⟨q.name, typeA, classINET, 300, 0⟩, ResourceBody.a (ipV4ToAResource localIPv4)⟩])
  else if q.type = typeAAAA then
    (responseHeader,
      [⟨⟨q.name, typeAAAA, classINET, 300, 0⟩, ResourceBody.aaaa (ipV6ToAAAAResource localIPv6)⟩])
  else
    ({ responseHeader with rcode := RCode.notImplemented }, [])

/-- The response header as first constructed by `buildResponse`
(`server.go:112-121`), before `answerQuestion` may overwrite its
`RCode`. -/
def responseHeaderFor (queryHeader : Header) : Header :=
  { id := queryHeader.id
    response := true
    opCode := 0
    authoritative := true
    truncated := false
    recursionDesired := queryHeader.recursionDesired
    recursionAvailable := false
    rcode := RCode.success }

/-- Embeds `buildResponse` (`server.go:111-148`): construct the response
header, run `answerQuestion` (which may change the `RCode`), then emit the
header, the single echoed question and the answer records.  Serialization
of the resulting well-formed message is modelled as succeeding, matching
the builder's behaviour on names that came from a successfully parsed
query. -/
def buildResponse (zone : String) (queryHeader : Header) (q : Question) :
    Except String Response :=
  let rh := responseHeaderFor queryHeader
  let (finalHeader, answers) := answerQuestion zone rh q
  Except.ok { header := finalHeader, questions := [q], answers := answers }

/-- An inbound datagram, abstracted at the message level: `none` when the
bytes cannot be decoded, otherwise the decoded header and question
section. -/
def Datagram : Type := Option (Header × List Question)

/-- Embeds `p.Question()` of `dnsmessage.Parser` as called at
`server.go:94`: return the first question of the question section, or an
error when the section is empty. -/
def parserQuestion : List Question → Except String Question
  | [] => Except.error "failed to parse DNS question"
  | q :: _ => Except.ok q

/-- Embeds `handleQuery` (`server.go:85-109`): parse the header, parse one
question, build the response.  An `Except.ok` result means the response
bytes are written back to the client; an `Except.error` means the query is
dropped before any write. -/
def handleQuery (zone : String) (datagram : Datagram) : Except String Response :=
  match datagram with
  | none => Except.error "failed to parse DNS query header"
  | some (queryHeader, questions) => do
    let q ← parserQuestion questions
    buildResponse zone queryHeader q

/-- One iteration's outcome of the socket read in `handleRequests`
(`server.go:69`): the read fails because the socket was closed, fails with
some other error, or yields a datagram. -/
inductive ReadEvent where
  | closed
  | readError
  | datagram (d : Option (Header × List Question))
deriving DecidableEq

/-- Embeds the receive loop of `handleRequests` (`server.go:66-83`) over a
finite trace of read outcomes: a closed-socket read returns `nil`
(success), any other read error is logged and the loop continues, and a
datagram is handed to a concurrent handler and the loop continues.  The
value is `none` while the trace is exhausted with the loop still
running. -/
def handleRequests : List ReadEvent → Option (Except String Unit)
  | [] => none
  | ReadEvent.closed :: _ => some (Except.ok ())
  | ReadEvent.readError :: rest => handleRequests rest
  | ReadEvent.datagram _ :: rest => handleRequests rest

/-!
Helper lemmas about the label-matching loop and the response builder.
-/

/-- The matching loop accepts as soon as the zone's labels run out. -/
theorem matchFromRight_nil_right (a : List (List Char)) : matchFromRight a [] = true := by
  cases a <;> rfl

/-- The matching loop accepts whenever the walked zone labels are an
initial segment of the walked name labels. -/
theorem matchFromRight_append (b t : List (List Char)) :
    matchFromRight (b ++ t) b = true := by
  induction b with
  | nil => exact matchFromRight_nil_right t
  | cons x xs ih => simp [matchFromRight, ih]

/-- When the name side is at least as long as the zone side, acceptance by
the matching loop means the zone side is an initial segment of the name
side. -/
theorem matchFromRight_exists_of_le (b : List (List Char)) :
    ∀ a : List (List Char), b.length ≤ a.length → matchFromRight a b = true →
      ∃ t, a = b ++ t := by
  induction b with
  | nil => exact fun a _ _ => ⟨a, rfl⟩
  | cons x xs ih =>
    intro a hlen hm
    cases a with
    | nil => simp at hlen
    | cons y ys =>
      simp only [matchFromRight, Bool.and_eq_true, beq_iff_eq] at hm
      obtain ⟨rfl, hm⟩ := hm
      obtain ⟨t, ht⟩ := ih ys (by simpa using hlen) hm
      exact ⟨t, by simp [ht]⟩

/-- The matching loop rejects as soon as some pair of labels visited by
both sides differs. -/
theorem matchFromRight_eq_false_of_ne (i : Nat) :
    ∀ a b : List (List Char), i < a.length → i < b.length →
      a.getD i [] ≠ b.getD i [] → matchFromRight a b = false := by
  induction i with
  | zero =>
    intro a b ha hb hne
    cases a with
    | nil => simp at ha
    | cons x xs =>
      cases b with
      | nil => simp at hb
      | cons y ys =>
        simp only [List.getD_cons_zero] at hne
        simp [matchFromRight, hne]
  | succ i ih =>
    intro a b ha hb hne
    cases a with
    | nil => simp at ha
    | cons x xs =>
      cases b with
      | nil => simp at hb
      | cons y ys =>
        simp only [List.getD_cons_succ] at hne
        have := ih xs ys (by simpa using ha) (by simpa using hb) hne
        simp [matchFromRight, this]

/-- A name whose normalized labels end in the zone's labels is accepted. -/
theorem isDomainInZone_of_suffix {name zone : String}
    (h : zoneLabels zone <:+ nameLabels name) :
    isDomainInZone name zone = true := by
  obtain ⟨t, ht⟩ := h
  unfold isDomainInZone
  rw [← ht, List.reverse_append]
  exact matchFromRight_append _ _

/-- When the name has at least as many labels as the zone, acceptance
means the zone's labels are a suffix of the name's normalized labels. -/
theorem suffix_of_isDomainInZone {name zone : String}
    (hlen : (zoneLabels zone).length ≤ (nameLabels name).length)
    (h : isDomainInZone name zone = true) :
    zoneLabels zone <:+ nameLabels name := by
  unfold isDomainInZone at h
  obtain ⟨t, ht⟩ := matchFromRight_exists_of_le _ _ (by simpa using hlen) h
  refine ⟨t.reverse, ?_⟩
  have h2 := congrArg List.reverse ht
  simpa [List.reverse_append] using h2.symm

/-- Unfolding of `buildResponse` in terms of `answerQuestion`. -/
theorem buildResponse_eq (zone : String) (qh : Header) (q : Question) :
    buildResponse zone qh q =
      Except.ok { header := (answerQuestion zone (responseHeaderFor qh) q).1,
                  questions := [q],
                  answers := (answerQuestion zone (responseHeaderFor qh) q).2 } := rfl

/-- A single-question datagram is handled by answering its question. -/
theorem handleQuery_cons (zone : String) (qh : Header) (q : Question)
    (rest : List Question) :
    handleQuery zone (some (qh, q :: rest)) = buildResponse zone qh q := rfl

/-- The out-of-zone branch of `answerQuestion` (`server.go:153-159`). -/
theorem answerQuestion_notInZone (zone : String) (rh : Header) (q : Question)
    (hz : zone ≠ "") (hn : isDomainInZone q.name zone = false) :
    answerQuestion zone rh q = ({ rh with rcode := RCode.nameError }, []) := by
  simp [answerQuestion, hz, hn]

/-- The A branch of `answerQuestion` (`server.go:162-175`). -/
theorem answerQuestion_typeA (zone : String) (rh : Header) (q : Question)
    (hin : zone = "" ∨ isDomainInZone q.name zone = true) (ht : q.type = typeA) :
    answerQuestion zone rh q =
      (rh, [⟨⟨q.name, typeA, classINET, 300, 0⟩, ResourceBody.a [127, 0, 0, 1]⟩]) := by
  have hnot : ¬(zone ≠ "" ∧ isDomainInZone q.name zone = false) := by
    rcases hin with h | h
    · simp [h]
    · simp [h]
  have hip : ipV4ToAResource localIPv4 = [127, 0, 0, 1] := rfl
  simp [answerQuestion, hnot, ht, hip]

/-- The AAAA branch of `answerQuestion` (`server.go:176-189`). -/
theorem answerQuestion_typeAAAA (zone : String) (rh : Header) (q : Question)
    (hin : zone = "" ∨ isDomainInZone q.name zone = true) (ht : q.type = typeAAAA) :
    answerQuestion zone rh q =
      (rh, [⟨⟨q.name, typeAAAA, classINET, 300, 0⟩,
        ResourceBody.aaaa [0, 0, 0, 0, 0, 0, 0, 0, 0, 0, 0, 0, 0, 0, 0, 1]⟩]) := by
  have hnot : ¬(zone ≠ "" ∧ isDomainInZone q.name zone = false) := by
    rcases hin with h | h
    · simp [h]
    · simp [h]
  have hip : ipV6ToAAAAResource localIPv6 = [0, 0, 0, 0, 0, 0, 0, 0, 0, 0, 0, 0, 0, 0, 0, 1] := rfl
  simp [answerQuestion, hnot, ht, hip, typeA, typeAAAA]

/-- The default branch of `answerQuestion` (`server.go:190-196`). -/
theorem answerQuestion_default (zone : String) (rh : Header) (q : Question)
    (hin : zone = "" ∨ isDomainInZone q.name zone = true)
    (h1 : q.type ≠ typeA) (h2 : q.type ≠ typeAAAA) :
    answerQuestion zone rh q = ({ rh with rcode := RCode.notImplemented }, []) := by
  have hnot : ¬(zone ≠ "" ∧ isDomainInZone q.name zone = false) := by
    rcases hin with h | h
    · simp [h]
    · simp [h]
  simp [answerQuestion, hnot, h1, h2]

/-- `answerQuestion` only ever changes the `RCode` of the response
header. -/
theorem answerQuestion_fst (zone : String) (rh : Header) (q : Question) :
    (answerQuestion zone rh q).1 =
      { rh with rcode := (answerQuestion zone rh q).1.rcode } := by
  unfold answerQuestion
  split_ifs <;> rfl

/-!
Claim theorems.
-/

/-- C1: for every valid single-question A query whose name is inside the
configured zone (or when no zone is configured), the built response has
`Response = true`, `RCode = Success`, a transaction ID equal to the
query's, and exactly one answer record of type A, class INET, TTL 300,
with value 127.0.0.1; for every such AAAA query, the single answer is of
type AAAA, class INET, TTL 300, with value ::1. -/
theorem C1_inzone_a_aaaa_loopback (zone name : String) (qh : Header) (cls : Nat)
    (h : zone = "" ∨ isDomainInZone name zone = true) :
    (∃ r, buildResponse zone qh ⟨name, typeA, cls⟩ = Except.ok r ∧
      r.header.response = true ∧ r.header.rcode = RCode.success ∧
      r.header.id = qh.id ∧
      r.answers = [⟨⟨name, typeA, classINET, 300, 0⟩, ResourceBody.a [127, 0, 0, 1]⟩]) ∧
    (∃ r, buildResponse zone qh ⟨name, typeAAAA, cls⟩ = Except.ok r ∧
      r.header.response = true ∧ r.header.rcode = RCode.success ∧
      r.header.id = qh.id ∧
      r.answers = [⟨⟨name, typeAAAA, classINET, 300, 0⟩,
        ResourceBody.aaaa [0, 0, 0, 0, 0, 0, 0, 0, 0, 0, 0, 0, 0, 0, 0, 1]⟩]) := by
  refine ⟨⟨{ header := responseHeaderFor qh, questions := [⟨name, typeA, cls⟩],
             answers := [⟨⟨name, typeA, classINET, 300, 0⟩, ResourceBody.a [127, 0, 0, 1]⟩] },
           ?_, rfl, rfl, rfl, rfl⟩,
          ⟨{ header := responseHeaderFor qh, questions := [⟨name, typeAAAA, cls⟩],
             answers := [⟨⟨name, typeAAAA, classINET, 300, 0⟩,
               ResourceBody.aaaa [0, 0, 0, 0, 0, 0, 0, 0, 0, 0, 0, 0, 0, 0, 0, 1]⟩] },
           ?_, rfl, rfl, rfl, rfl⟩⟩
  · rw [buildResponse_eq,
      answerQuestion_typeA zone (responseHeaderFor qh) ⟨name, typeA, cls⟩ h rfl]
  · rw [buildResponse_eq,
      answerQuestion_typeAAAA zone (responseHeaderFor qh) ⟨name, typeAAAA, cls⟩ h rfl]

/-- C1 witness: with zone `test.zone.`, the name `sub.test.zone.` is in
zone, and A and AAAA queries for it each get the single loopback
answer. -/
theorem C1_witness :
    ("test.zone." = "" ∨ isDomainInZone "sub.test.zone." "test.zone." = true) ∧
    ((∃ r, buildResponse "test.zone." ⟨7, false, 0, false, false, true, false, RCode.success⟩
        ⟨"sub.test.zone.", typeA, classINET⟩ = Except.ok r ∧
      r.header.response = true ∧ r.header.rcode = RCode.success ∧
      r.header.id = 7 ∧
      r.answers = [⟨⟨"sub.test.zone.", typeA, classINET, 300, 0⟩,
        ResourceBody.a [127, 0, 0, 1]⟩]) ∧
    (∃ r, buildResponse "test.zone." ⟨7, false, 0, false, false, true, false, RCode.success⟩
        ⟨"sub.test.zone.", typeAAAA, classINET⟩ = Except.ok r ∧
      r.header.response = true ∧ r.header.rcode = RCode.success ∧
      r.header.id = 7 ∧
      r.answers = [⟨⟨"sub.test.zone.", typeAAAA, classINET, 300, 0⟩,
        ResourceBody.aaaa [0, 0, 0, 0, 0, 0, 0, 0, 0, 0, 0, 0, 0, 0, 0, 1]⟩])) :=
  ⟨Or.inr (by decide),
   C1_inzone_a_aaaa_loopback "test.zone." "sub.test.zone."
     ⟨7, false, 0, false, false, true, false, RCode.success⟩ classINET
     (Or.inr (by decide))⟩

/-- C2: policy-rejected queries still receive a response: a query whose
name is outside a configured zone gets `RCode = NameError`, zero answer
records and the echoed transaction ID; an in-zone query whose type is
neither A nor AAAA gets `RCode = NotImplemented` and zero answer records;
in both cases `buildResponse` succeeds and `handleQuery` writes the
response. -/
theorem C2_policy_rejections_answered (zone : String) (qh : Header) (q : Question) :
    (zone ≠ "" → isDomainInZone q.name zone = false →
      ∃ r, buildResponse zone qh q = Except.ok r ∧
        handleQuery zone (some (qh, [q])) = Except.ok r ∧
        r.header.rcode = RCode.nameError ∧ r.answers = [] ∧ r.header.id = qh.id) ∧
    ((zone = "" ∨ isDomainInZone q.name zone = true) →
      q.type ≠ typeA → q.type ≠ typeAAAA →
      ∃ r, buildResponse zone qh q = Except.ok r ∧
        handleQuery zone (some (qh, [q])) = Except.ok r ∧
        r.header.rcode = RCode.notImplemented ∧ r.answers = [] ∧ r.header.id = qh.id) := by
  constructor
  · intro hz hn
    refine ⟨{ header := { responseHeaderFor qh with rcode := RCode.nameError },
              questions := [q], answers := [] }, ?_, ?_, rfl, rfl, rfl⟩
    · rw [buildResponse_eq, answerQuestion_notInZone zone (responseHeaderFor qh) q hz hn]
    · rw [handleQuery_cons, buildResponse_eq,
        answerQuestion_notInZone zone (responseHeaderFor qh) q hz hn]
  · intro hin h1 h2
    refine ⟨{ header := { responseHeaderFor qh with rcode := RCode.notImplemented },
              questions := [q], answers := [] }, ?_, ?_, rfl, rfl, rfl⟩
    · rw [buildResponse_eq, answerQuestion_default zone (responseHeaderFor qh) q hin h1 h2]
    · rw [handleQuery_cons, buildResponse_eq,
        answerQuestion_default zone (responseHeaderFor qh) q hin h1 h2]

/-- C2 witness: with zone `test.zone.`, an A query for `wrong.zone.` gets
a `NameError` response with no answers, and a TXT (type 16) query for
`test.zone.` gets a `NotImplemented` response with no answers; both are
sent. -/
theorem C2_witness :
    (("test.zone." : String) ≠ "" ∧
     isDomainInZone "wrong.zone." "test.zone." = false ∧
     ∃ r, buildResponse "test.zone." ⟨1, false, 0, false, false, true, false, RCode.success⟩
         ⟨"wrong.zone.", typeA, classINET⟩ = Except.ok r ∧
       handleQuery "test.zone."
         (some (⟨1, false, 0, false, false, true, false, RCode.success⟩,
           [⟨"wrong.zone.", typeA, classINET⟩])) = Except.ok r ∧
       r.header.rcode = RCode.nameError ∧ r.answers = [] ∧ r.header.id = 1) ∧
    (isDomainInZone "test.zone." "test.zone." = true ∧
     ∃ r, buildResponse "test.zone." ⟨1, false, 0, false, false, true, false, RCode.success⟩
         ⟨"test.zone.", 16, classINET⟩ = Except.ok r ∧
       handleQuery "test.zone."
         (some (⟨1, false, 0, false, false, true, false, RCode.success⟩,
           [⟨"test.zone.", 16, classINET⟩])) = Except.ok r ∧
       r.header.rcode = RCode.notImplemented ∧ r.answers = [] ∧ r.header.id = 1) :=
  ⟨⟨by decide, by decide,
    (C2_policy_rejections_answered "test.zone."
      ⟨1, false, 0, false, false, true, false, RCode.success⟩
      ⟨"wrong.zone.", typeA, classINET⟩).1 (by decide) (by decide)⟩,
   ⟨by decide,
    (C2_policy_rejections_answered "test.zone."
      ⟨1, false, 0, false, false, true, false, RCode.success⟩
      ⟨"test.zone.", 16, classINET⟩).2 (Or.inr (by decide)) (by decide) (by decide)⟩⟩

/-- C6: for every parsed query, the response header built by
`buildResponse` copies the query's transaction ID and has
`Response = true`, `OpCode = 0`, `Authoritative = true`,
`Truncated = false`, `RecursionDesired` equal to the query header's,
`RecursionAvailable = false`, and `RCode` initially `Success`, regardless
of question name, type, or zone configuration; only the `RCode` may
subsequently change. -/
theorem C6_response_header_fields (zone : String) (qh : Header) (q : Question) :
    ∃ r, buildResponse zone qh q = Except.ok r ∧
      r.header.id = qh.id ∧ r.header.response = true ∧ r.header.opCode = 0 ∧
      r.header.authoritative = true ∧ r.header.truncated = false ∧
      r.header.recursionDesired = qh.recursionDesired ∧
      r.header.recursionAvailable = false ∧
      (responseHeaderFor qh).rcode = RCode.success ∧
      r.header = { responseHeaderFor qh with rcode := r.header.rcode } := by
  refine ⟨_, buildResponse_eq zone qh q, ?_⟩
  have hfst := answerQuestion_fst zone (responseHeaderFor qh) q
  rw [hfst]
  exact ⟨rfl, rfl, rfl, rfl, rfl, rfl, rfl, rfl, rfl⟩

/-- C3: evaluation of the zone matcher at the failing input: the name
`zone.` has fewer labels than the zone `test.zone.`, yet `isDomainInZone`
accepts it, because the comparison loop stops as soon as the name's labels
run out. -/
theorem C3_short_name_accepted :
    isDomainInZone "zone." "test.zone." = true ∧
    (nameLabels "zone.").length < (zoneLabels "test.zone.").length := by
  decide

/-- C4 counterexample: a well-formed datagram carrying two questions is
answered (`handleQuery` succeeds and the response, built for the first
question, is written back), contradicting the claim that more than one
question means no response datagram at all. -/
theorem C4_counterexample :
    (handleQuery ""
      (some (⟨9, false, 0, false, false, true, false, RCode.success⟩,
        [⟨"first.example.", typeA, classINET⟩,
         ⟨"second.example.", typeAAAA, classINET⟩]))).isOk = true := by
  decide

/-- C4 amended: a malformed datagram or a zero-question datagram gets no
response (`handleQuery` fails before any write); a datagram with one or
more questions is answered as if it contained only its first question, so
a response is sent. -/
theorem C4_parse_gate (zone : String) (qh : Header) (q : Question)
    (rest : List Question) :
    (handleQuery zone none).isOk = false ∧
    (handleQuery zone (some (qh, []))).isOk = false ∧
    handleQuery zone (some (qh, q :: rest)) = buildResponse zone qh q ∧
    (handleQuery zone (some (qh, q :: rest))).isOk = true := by
  refine ⟨rfl, rfl, rfl, ?_⟩
  show (buildResponse zone qh q).isOk = true
  rw [buildResponse_eq]
  rfl

/-- C5 counterexample: with zone `a.b.c.`, the name `b.c.` is accepted by
`isDomainInZone` even though the zone's label sequence is not a
right-aligned (suffix) match of the name's labels. -/
theorem C5_counterexample :
    isDomainInZone "b.c." "a.b.c." = true ∧
    ¬ zoneLabels "a.b.c." <:+ nameLabels "b.c." := by
  decide

/-- C5 amended: zone matching is reflexive on every zone ending with the
root separator, accepts every name whose normalized labels have the zone's
labels as a suffix (in particular every proper subdomain), and on names
with at least as many labels as the zone accepts exactly the right-aligned
label matches; a name with fewer labels than the zone is accepted whenever
all of its labels match the corresponding rightmost zone labels. -/
theorem C5_right_aligned_match (name zone : String) :
    (hasSuffixDot zone.toList = true → isDomainInZone zone zone = true) ∧
    (zoneLabels zone <:+ nameLabels name → isDomainInZone name zone = true) ∧
    ((zoneLabels zone).length ≤ (nameLabels name).length →
      isDomainInZone name zone = true → zoneLabels zone <:+ nameLabels name) := by
  refine ⟨?_, fun h => isDomainInZone_of_suffix h,
    fun hlen hm => suffix_of_isDomainInZone hlen hm⟩
  intro h
  apply isDomainInZone_of_suffix
  simp only [String.toList] at h
  simp [nameLabels, zoneLabels, h, List.suffix_refl]

/-- C5 witness: with zone `test.zone.`, the zone itself is in zone, the
subdomain `sub.test.zone.` is in zone, and the accepted `sub.test.zone.`
is indeed a right-aligned label match of the zone. -/
theorem C5_witness :
    (hasSuffixDot "test.zone.".toList = true ∧
      isDomainInZone "test.zone." "test.zone." = true) ∧
    (zoneLabels "test.zone." <:+ nameLabels "sub.test.zone." ∧
      isDomainInZone "sub.test.zone." "test.zone." = true) ∧
    ((zoneLabels "test.zone.").length ≤ (nameLabels "sub.test.zone.").length ∧
      isDomainInZone "sub.test.zone." "test.zone." = true ∧
      zoneLabels "test.zone." <:+ nameLabels "sub.test.zone.") :=
  ⟨⟨by decide, (C5_right_aligned_match "" "test.zone.").1 (by decide)⟩,
   ⟨by decide, (C5_right_aligned_match "sub.test.zone." "test.zone.").2.1 (by decide)⟩,
   ⟨by decide, by decide,
    (C5_right_aligned_match "sub.test.zone." "test.zone.").2.2 (by decide) (by decide)⟩⟩

/-- C7: over any finite trace of socket-read outcomes, the receive loop
returns success exactly when a closed-socket read occurs (so it never
terminates with an error), and a read error makes it continue with the
rest of the trace unchanged. -/
theorem C7_receive_loop_shutdown (events : List ReadEvent) :
    handleRequests events =
      (if ReadEvent.closed ∈ events then some (Except.ok ()) else none) ∧
    handleRequests (ReadEvent.readError :: events) = handleRequests events := by
  refine ⟨?_, rfl⟩
  induction events with
  | nil => rfl
  | cons e rest ih =>
    cases e with
    | closed => simp [handleRequests]
    | readError => simpa [handleRequests] using ih
    | datagram d => simpa [handleRequests] using ih

/-- C8 counterexample: appending the trailing root separator to both the
name and the zone changes the result of `isDomainInZone`, because the code
normalizes only the name and never the zone. -/
theorem C8_counterexample :
    ¬ (isDomainInZone "test.zone" "test.zone" =
       isDomainInZone ("test.zone" ++ ".") ("test.zone" ++ ".")) := by
  decide

/-- C8 amended: only the query name is normalized: for every name lacking
the trailing root separator, `isDomainInZone name zone` equals
`isDomainInZone (name ++ ".") zone`; the configured zone is used verbatim,
so appending a separator to a zone that lacks one can change the
result. -/
theorem C8_name_normalization (name zone : String)
    (h : hasSuffixDot name.toList = false) :
    isDomainInZone name zone = isDomainInZone (name ++ ".") zone := by
  simp only [String.toList] at h
  have hdot : (name ++ ".").data = name.data ++ ['.'] := rfl
  have h2 : hasSuffixDot (name.data ++ ['.']) = true := by
    simp [hasSuffixDot, List.getLast?_concat]
  unfold isDomainInZone nameLabels
  simp [hdot, h, h2]

/-- C8 witness: the name `sub.test.zone` lacks the trailing separator, and
matching it against zone `test.zone.` agrees with matching its normalized
form. -/
theorem C8_witness :
    hasSuffixDot "sub.test.zone".toList = false ∧
    isDomainInZone "sub.test.zone" "test.zone." =
      isDomainInZone ("sub.test.zone" ++ ".") "test.zone." :=
  ⟨by decide, C8_name_normalization "sub.test.zone" "test.zone." (by decide)⟩

/-- C9: zone matching compares labels by exact byte equality: whenever
some pair of right-aligned labels of the normalized name and of the zone
differs as strings, a configured zone rejects the name and the query is
answered with `RCode = NameError` and no answers, whatever the question
type.  In particular a name differing from the zone only in letter case is
out of zone, even though DNS names are conventionally case-insensitive. -/
theorem C9_case_sensitive_matching (zone name : String) (qh : Header)
    (t cls i : Nat) (hz : zone ≠ "")
    (h1 : i < (nameLabels name).reverse.length)
    (h2 : i < (zoneLabels zone).reverse.length)
    (hne : (nameLabels name).reverse.getD i [] ≠ (zoneLabels zone).reverse.getD i []) :
    ∃ r, buildResponse zone qh ⟨name, t, cls⟩ = Except.ok r ∧
      r.header.rcode = RCode.nameError ∧ r.answers = [] := by
  have hfalse : isDomainInZone name zone = false := by
    show matchFromRight (nameLabels name).reverse (zoneLabels zone).reverse = false
    exact matchFromRight_eq_false_of_ne i _ _ h1 h2 hne
  refine ⟨{ header := { responseHeaderFor qh with rcode := RCode.nameError },
            questions := [⟨name, t, cls⟩], answers := [] }, ?_, rfl, rfl⟩
  rw [buildResponse_eq,
    answerQuestion_notInZone zone (responseHeaderFor qh) ⟨name, t, cls⟩ hz hfalse]

/-- C9 witness: with zone `test.zone.`, the name `TEST.ZONE.` differs from
the zone only in letter case (at right-aligned label position 1 the labels
are `ZONE` and `zone`), and its A query is answered with `NameError` and
no answers. -/
theorem C9_witness :
    (("test.zone." : String) ≠ "" ∧
     1 < (nameLabels "TEST.ZONE.").reverse.length ∧
     1 < (zoneLabels "test.zone.").reverse.length ∧
     (nameLabels "TEST.ZONE.").reverse.getD 1 [] ≠
       (zoneLabels "test.zone.").reverse.getD 1 []) ∧
    ∃ r, buildResponse "test.zone." ⟨3, false, 0, false, false, true, false, RCode.success⟩
        ⟨"TEST.ZONE.", typeA, classINET⟩ = Except.ok r ∧
      r.header.rcode = RCode.nameError ∧ r.answers = [] :=
  ⟨⟨by decide, by decide, by decide, by decide⟩,
   C9_case_sensitive_matching "test.zone." "TEST.ZONE."
     ⟨3, false, 0, false, false, true, false, RCode.success⟩ typeA classINET 1
     (by decide) (by decide) (by decide) (by decide)⟩

/-- C10: the question's class is never examined: `answerQuestion` gives
identical results for any two classes of the same question, every answer
record it produces carries class INET, and the built responses for two
classes agree on header and answers (only the echoed question differs). -/
theorem C10_class_ignored (zone : String) (rh : Header) (qh : Header)
    (name : String) (t c₁ c₂ : Nat) :
    answerQuestion zone rh ⟨name, t, c₁⟩ = answerQuestion zone rh ⟨name, t, c₂⟩ ∧
    ((answerQuestion zone rh ⟨name, t, c₁⟩).2.map fun res => res.header.cls) =
      List.replicate (answerQuestion zone rh ⟨name, t, c₁⟩).2.length classINET ∧
    (∃ r₁ r₂, buildResponse zone qh ⟨name, t, c₁⟩ = Except.ok r₁ ∧
      buildResponse zone qh ⟨name, t, c₂⟩ = Except.ok r₂ ∧
      r₁.header = r₂.header ∧ r₁.answers = r₂.answers) := by
  have key : answerQuestion zone rh ⟨name, t, c₁⟩ = answerQuestion zone rh ⟨name, t, c₂⟩ := rfl
  refine ⟨key, ?_, ?_⟩
  · unfold answerQuestion
    split_ifs <;> rfl
  · exact ⟨_, _, buildResponse_eq zone qh ⟨name, t, c₁⟩,
      buildResponse_eq zone qh ⟨name, t, c₂⟩, rfl, rfl⟩
